import Mathlib

/-!
Verification development for the kodegend daemon (supervisor, embedded-server
fleet manager, process-shutdown choreography, event-bus send disciplines).

Each Rust function that a claim depends on is shallowly embedded as an
executable Lean definition.  Nondeterministic interaction with the operating
system (results of non-blocking waits, bind attempts, spawn attempts, health
probes) is supplied by an explicit environment argument, so every definition
is a pure function of its inputs.
-/

namespace Kodegend

/-! ## Process-shutdown choreography
Model of shutdown_server_graceful in src/service/kodegen_http.rs (unix branch).

The Rust function receives a tokio Child.  The model represents the child by
the data the function actually consumes: the result of child.id() (pid),
the stream of child.try_wait() results in call order, and whether
child.start_kill() succeeds.  Idealised timing: the poll loop sleeps exactly
100ms per iteration and the loop body takes no time, so the graceful phase
(deadline 30s) performs try_wait at t = 0, 0.1s, ..., 30.0s, i.e. 301 calls,
and the forced phase (deadline 5s) performs 51 calls.
-/

/-- An exit status as observed by a successful non-blocking wait. -/
structure ExitStatus where
  success : Bool
  code : Int
deriving DecidableEq

/-- Result of one child.try_wait() call: Ok(Some(status)), Ok(None), or Err. -/
inductive TryWaitRes where
  | exited (st : ExitStatus)
  | running
  | oserr
deriving DecidableEq

/-- The data of a tokio child handle that shutdown_server_graceful consumes. -/
structure ChildModel where
  /-- child.id(); None means the child was already polled to completion
      (tokio returns None only after a successful wait, i.e. already reaped). -/
  pid : Option Nat
  /-- result of the k-th try_wait() call made by the choreography. -/
  tryWaitSeq : Nat → TryWaitRes
  /-- whether child.start_kill() succeeds. -/
  startKillOk : Bool

/-- Outcome of one poll loop (phase 2 or phase 4 of the choreography). -/
inductive PollOutcome where
  | exited (st : ExitStatus)
  | timedOut
  | waitErr
deriving DecidableEq

/-- Observable steps of the choreography, in order of occurrence. -/
inductive ShutdownStep where
  | sigterm
  | tryWait
  | sleep100
  | sigkill
deriving DecidableEq

/-- One poll loop of the Rust source: call try_wait(); on Ok(Some) return the
status; on Err return the error; on Ok(None) break (timeout) once the
deadline has passed, otherwise sleep 100ms and repeat.  fuel is the number
of 100ms sleeps still permitted before the deadline check fires (300 for the
30s graceful phase, 50 for the 5s forced phase); i is the index of the next
try_wait call in the stream.  Returns the outcome, the index after the last
consumed try_wait call, and the emitted steps. -/
def pollLoop (tw : Nat → TryWaitRes) (i : Nat) : Nat → PollOutcome × Nat × List ShutdownStep
  | 0 =>
    match tw i with
    | .exited st => (.exited st, i + 1, [.tryWait])
    | .oserr => (.waitErr, i + 1, [.tryWait])
    | .running => (.timedOut, i + 1, [.tryWait])
  | fuel + 1 =>
    match tw i with
    | .exited st => (.exited st, i + 1, [.tryWait])
    | .oserr => (.waitErr, i + 1, [.tryWait])
    | .running =>
      let r := pollLoop tw (i + 1) fuel
      (r.1, r.2.1, .tryWait :: .sleep100 :: r.2.2)

/-- Result of shutdown_server_graceful.  The Rust function returns
Result of unit; okExit additionally records the exit status that the
successful try_wait observed (the source logs this status).  The error
constructors mirror the four anyhow errors of the source:
errStatusCheck = "Error checking status" (phase-2 try_wait error),
errKillFailed = propagated child.start_kill() error,
errKillTimeout = "did not respond to SIGKILL after 5s",
errKillWait = "SIGKILL wait failed" (phase-4 try_wait error). -/
inductive ShutdownResult where
  | okExit (st : ExitStatus)
  | okNoPid
  | errStatusCheck
  | errKillFailed
  | errKillTimeout
  | errKillWait
deriving DecidableEq

/-- Model of shutdown_server_graceful (unix branch): SIGTERM, poll up to 30s,
on timeout SIGKILL, poll up to 5s.  A SIGTERM delivery failure is logged and
ignored by the source, so the model records the sigterm attempt and
continues. -/
def shutdown_server_graceful (c : ChildModel) : ShutdownResult × List ShutdownStep :=
  match c.pid with
  | none => (.okNoPid, [])
  | some _ =>
    let r2 := pollLoop c.tryWaitSeq 0 300
    match r2.1 with
    | .exited st => (.okExit st, .sigterm :: r2.2.2)
    | .waitErr => (.errStatusCheck, .sigterm :: r2.2.2)
    | .timedOut =>
      if c.startKillOk then
        let r4 := pollLoop c.tryWaitSeq r2.2.1 50
        match r4.1 with
        | .exited st => (.okExit st, .sigterm :: r2.2.2 ++ .sigkill :: r4.2.2)
        | .waitErr => (.errKillWait, .sigterm :: r2.2.2 ++ .sigkill :: r4.2.2)
        | .timedOut => (.errKillTimeout, .sigterm :: r2.2.2 ++ .sigkill :: r4.2.2)
      else (.errKillFailed, .sigterm :: r2.2.2)

/-- The step trace of a poll phase whose first k try_wait calls see a running
child and whose call k terminates the phase (by exit, error, or deadline). -/
def pollTrace : Nat → List ShutdownStep
  | 0 => [.tryWait]
  | k + 1 => .tryWait :: .sleep100 :: pollTrace k

/-! ## Fleet startup (KodegenHttpService) in src/service/kodegen_http.rs
Model of KodegenHttpService.start, check_port_available, rollback_spawned.

A fleet member is a CategoryServerConfig from src/config.rs.  The operating
system and child behaviour are an environment indexed by member position:
whether the pre-flight bind succeeds, whether cmd.spawn() succeeds, which
state the liveness monitor reports within the 5s watch window (Layer 1),
whether the /health endpoint answers 2xx within 5s (Layer 2), and whether
the rollback shutdown choreography for this member returns Ok.

Liveness bookkeeping: a member index is live when its child process was
spawned, has not been observed exited, and has not been successfully shut
down.  A member whose monitor reported Failed saw the child already exited
(try_wait returned a status), so that member is not live. -/

/-- Fleet-member configuration (struct CategoryServerConfig, src/config.rs). -/
structure CategoryServerConfig where
  name : String
  binary : String
  port : Nat
  enabled : Bool
deriving DecidableEq

/-- What the per-member liveness monitor reports through the watch channel
during the 5s startup wait: State::Running (initial 100ms check passed),
State::Failed (child exited during startup), or no change from
State::Starting within 5s (the timeout arm of the source). -/
inductive Layer1 where
  | running
  | failed
  | timeout
deriving DecidableEq

/-- Environment for one fleet member. -/
structure MemberEnv where
  bindOk : Bool
  spawnOk : Bool
  layer1 : Layer1
  healthOk : Bool
  shutdownOk : Bool

/-- Observable fleet-startup events in order of occurrence. -/
inductive FleetEv where
  | bind (port : Nat)
  | release (port : Nat)
  | spawn (idx : Nat)
  | shutdown (idx : Nat) (ok : Bool)
  | abortMonitor (idx : Nat)
  | abortStdout (idx : Nat)
  | abortStderr (idx : Nat)
deriving DecidableEq

/-- The events of rolling back one member: take the child from the shared
cell and run the shutdown choreography, then abort the monitor task, then
abort the stdout and stderr forwarding tasks (rollback_spawned body). -/
def rollbackMemberTrace (env : Nat → MemberEnv) (idx : Nat) : List FleetEv :=
  [.shutdown idx (env idx).shutdownOk, .abortMonitor idx,
    .abortStdout idx, .abortStderr idx]

/-- Loop body of rollback_spawned over an already-reversed index list.  A
failed shutdown is logged and the loop continues (the member stays live);
a successful shutdown removes the member from the live set. -/
def rollbackGo (env : Nat → MemberEnv) : List Nat → List Nat → List FleetEv × List Nat
  | [], live => ([], live)
  | idx :: rest, live =>
    let live1 := if (env idx).shutdownOk then live.filter (fun j => j != idx) else live
    let r := rollbackGo env rest live1
    (rollbackMemberTrace env idx ++ r.1, r.2)

/-- rollback_spawned: iterate over spawned_indices.iter().rev(). -/
def rollback_spawned (env : Nat → MemberEnv) (spawned live : List Nat) :
    List FleetEv × List Nat :=
  rollbackGo env spawned.reverse live

/-- Pre-flight loop of KodegenHttpService.start: for each enabled member in
order, check_port_available binds a listener on 127.0.0.1:port and
immediately drops it; the first failing bind returns the error at once. -/
def preflightGo (env : Nat → MemberEnv) :
    List CategoryServerConfig → Nat → Bool × List FleetEv
  | [], _ => (true, [])
  | c :: rest, i =>
    if c.enabled then
      if (env i).bindOk then
        let r := preflightGo env rest (i + 1)
        (r.1, .bind c.port :: .release c.port :: r.2)
      else (false, [])
    else preflightGo env rest (i + 1)

def preflight (cfgs : List CategoryServerConfig) (env : Nat → MemberEnv) :
    Bool × List FleetEv :=
  preflightGo env cfgs 0

/-- Specification-side helper: every enabled member's bind succeeds
(no early exit, no trace). -/
def allEnabledBindsOk (env : Nat → MemberEnv) :
    List CategoryServerConfig → Nat → Bool
  | [], _ => true
  | c :: rest, i => (!c.enabled || (env i).bindOk) && allEnabledBindsOk env rest (i + 1)

/-- Specification-side helper: the bind-then-release event pairs of all
enabled members in order. -/
def bindReleaseTrace :
    List CategoryServerConfig → Nat → List FleetEv
  | [], _ => []
  | c :: rest, i =>
    if c.enabled then
      .bind c.port :: .release c.port :: bindReleaseTrace rest (i + 1)
    else bindReleaseTrace rest (i + 1)

/-- Result of KodegenHttpService.start: whether it returned Ok, the event
trace, and the indices whose child process is live after the return. -/
structure StartOutcome where
  ok : Bool
  trace : List FleetEv
  live : List Nat
deriving DecidableEq

/-- Spawn loop of KodegenHttpService.start over the enumerated members,
carrying spawned_indices (members that passed both health layers) and the
live set.  Branches mirror the source exactly:
- disabled member: skip;
- cmd.spawn() failure: the error propagates with the question-mark
  operator, so NO rollback of previously spawned members happens;
- monitor reports Failed: the child already exited; roll back the previous
  members and fail;
- 5s watch timeout: roll back the previous members and fail (this child,
  still alive, is not shut down);
- Layer-2 /health failure: abort this member's own monitor task, roll back
  the PREVIOUS members only, and fail; this member's child, which is alive
  and running, is never shut down on this path. -/
def startGo (env : Nat → MemberEnv) :
    List (Nat × CategoryServerConfig) → List Nat → List Nat → StartOutcome
  | [], _, live => { ok := true, trace := [], live := live }
  | (idx, c) :: rest, spawned, live =>
    if c.enabled then
      if (env idx).spawnOk then
        match (env idx).layer1 with
        | .failed =>
          let r := rollback_spawned env spawned live
          { ok := false, trace := .spawn idx :: r.1, live := r.2 }
        | .timeout =>
          let r := rollback_spawned env spawned (idx :: live)
          { ok := false, trace := .spawn idx :: r.1, live := r.2 }
        | .running =>
          if (env idx).healthOk then
            let r := startGo env rest (spawned ++ [idx]) (idx :: live)
            { ok := r.ok, trace := .spawn idx :: r.trace, live := r.live }
          else
            let r := rollback_spawned env spawned (idx :: live)
            { ok := false, trace := .spawn idx :: .abortMonitor idx :: r.1, live := r.2 }
      else { ok := false, trace := [], live := live }
    else startGo env rest spawned live

/-- KodegenHttpService.start: pre-flight all enabled ports, then spawn
members sequentially. -/
def KodegenHttpService.start (cfgs : List CategoryServerConfig) (env : Nat → MemberEnv) :
    StartOutcome :=
  let pf := preflight cfgs env
  if pf.1 then
    let r := startGo env cfgs.enum [] []
    { ok := r.ok, trace := pf.2 ++ r.trace, live := r.live }
  else { ok := false, trace := pf.2, live := [] }

/-- A one-member fleet whose child spawns, stays alive (monitor reports
Running) but never answers 2xx on /health: the Layer-2 failure path. -/
def c1Cfgs : List CategoryServerConfig :=
  [{ name := "filesystem", binary := "kodegen-filesystem", port := 30437, enabled := true }]

def c1Env : Nat → MemberEnv :=
  fun _ => { bindOk := true, spawnOk := true, layer1 := .running,
             healthOk := false, shutdownOk := true }

/-! ## Embedded in-process servers, src/service/embedded_servers.rs
Model of start_all_servers.  start_server either returns a ServerHandle or
an error, decided by the environment per member index. -/

/-- Handle returned for one embedded server (struct EmbeddedServer). -/
structure EmbeddedServer where
  name : String
  port : Nat
deriving DecidableEq

/-- Loop of start_all_servers over the enumerated configs.  Returns the
handle list (none on failure, after rollback of the started servers) and
the list of indices for which start_server was invoked, in order.
Disabled members are skipped entirely. -/
def startAllGo (env : Nat → Bool) :
    List (Nat × CategoryServerConfig) → Option (List EmbeddedServer) × List Nat
  | [] => (some [], [])
  | (i, c) :: rest =>
    if c.enabled then
      if env i then
        let r := startAllGo env rest
        (r.1.map (fun l => ⟨c.name, c.port⟩ :: l), i :: r.2)
      else (none, [i])
    else startAllGo env rest

def start_all_servers (cfgs : List CategoryServerConfig) (env : Nat → Bool) :
    Option (List EmbeddedServer) × List Nat :=
  startAllGo env cfgs.enum

/-! ## Restart scheduler, src/manager.rs
Model of ServiceManager.schedule_restart and process_pending_restarts.
The HashMap of pending restarts is an association list with unique keys
(insertP removes any previous binding); workers is the set of service
names that have a command sender.  Instants are Nat milliseconds. -/

/-- struct RestartState: restart-due instant and attempt counter. -/
structure RestartSt where
  stopTime : Nat
  attempts : Nat
deriving DecidableEq

/-- HashMap.insert: bind the key, dropping any previous binding. -/
def insertP (pending : List (String × RestartSt)) (s : String) (v : RestartSt) :
    List (String × RestartSt) :=
  (s, v) :: pending.filter (fun q => q.1 != s)

/-- schedule_restart: if the service has a worker, send Stop, then insert
a pending entry with stop_time = now + delay and
attempts = prior + 1 (or 1 if no entry exists). -/
def schedule_restart (workers : List String) (pending : List (String × RestartSt))
    (service : String) (delayMs now : Nat) : List (String × RestartSt) :=
  if workers.contains service then
    let attempts :=
      match List.lookup service pending with
      | none => 1
      | some st => st.attempts + 1
    insertP pending service { stopTime := now + delayMs, attempts := attempts }
  else pending

/-- process_pending_restarts: remove every due entry (now at or past its
stop_time); for each removed entry whose service has a worker, send Start.
Returns the remaining table and the issued (service, attempts) starts. -/
def process_pending_restarts (workers : List String)
    (pending : List (String × RestartSt)) (now : Nat) :
    List (String × RestartSt) × List (String × Nat) :=
  let due := pending.filter (fun q => decide (q.2.stopTime ≤ now))
  let remaining := pending.filter (fun q => !decide (q.2.stopTime ≤ now))
  (remaining, (due.filter (fun q => workers.contains q.1)).map (fun q => (q.1, q.2.attempts)))

/-- Scenario of spec test 5: one worker that crashes immediately after each
Start.  Crash, restart tick, crash, restart tick, crash. -/
def c6workers : List String := ["w"]

def c6afterCrash1 : List (String × RestartSt) :=
  schedule_restart c6workers [] "w" 0 0

def c6afterTick1 : List (String × RestartSt) :=
  (process_pending_restarts c6workers c6afterCrash1 0).1

def c6afterCrash2 : List (String × RestartSt) :=
  schedule_restart c6workers c6afterTick1 "w" 0 1

def c6afterTick2 : List (String × RestartSt) :=
  (process_pending_restarts c6workers c6afterCrash2 1).1

def c6afterCrash3 : List (String × RestartSt) :=
  schedule_restart c6workers c6afterTick2 "w" 0 2

/-- The attempt count of the pending-restart entry right after each crash. -/
def c6observedAttempts : List Nat :=
  [((List.lookup "w" c6afterCrash1).map RestartSt.attempts).getD 0,
   ((List.lookup "w" c6afterCrash2).map RestartSt.attempts).getD 0,
   ((List.lookup "w" c6afterCrash3).map RestartSt.attempts).getD 0]

/-! ## Event-bus send disciplines, src/install/download/core.rs
Model of the send_critical and send_best_effort closures of
download_binary, and of the critical-send skeleton of download_binary.
The channel condition at each send is an environment Bool pair:
closed (progress_tx.is_closed / TrySendError::Closed) and
full (TrySendError::Full). -/

/-- Result of one critical send. -/
inductive CriticalSendRes where
  | sent
  | failed (msg : String)
deriving DecidableEq

/-- send_critical: a closed channel fails with "Download cancelled:
progress channel closed"; any try_send failure (a full channel included)
fails with "Progress channel closed". -/
def send_critical (closed full : Bool) : CriticalSendRes :=
  if closed then .failed "Download cancelled: progress channel closed"
  else if full then .failed "Progress channel closed"
  else .sent

/-- Result of download_binary (Ok path abstracted to ok). -/
inductive DlRes where
  | ok
  | err (msg : String)
deriving DecidableEq

/-- The failure structure of download_binary: critical sends at the
Discovering, Extracting and Complete phases, with the fallible release
discovery, chunk download, and extraction in between.  Best-effort chunk
sends happen between the Discovering and Extracting sends and never fail
the operation.  Every send_critical failure propagates with the
question-mark operator. -/
def download_binary (c0 f0 c1 f1 c2 f2 fetchOk dlOk exOk : Bool) : DlRes :=
  match send_critical c0 f0 with
  | .failed m => .err m
  | .sent =>
    if !fetchOk then .err "release discovery failed"
    else if !dlOk then .err "download failed"
    else
      match send_critical c1 f1 with
      | .failed m => .err m
      | .sent =>
        if !exOk then .err "extraction failed"
        else
          match send_critical c2 f2 with
          | .failed m => .err m
          | .sent => .ok

/-- Channel condition observed by one best-effort try_send. -/
inductive ChanSt where
  | avail
  | full
  | closed
deriving DecidableEq

/-- Outcome of one best-effort send: the progress-disabled flag after the
send, whether a warning was emitted, and whether the event was delivered. -/
structure BeResult where
  disabled : Bool
  warned : Bool
  delivered : Bool
deriving DecidableEq

/-- send_best_effort: if the disabled flag is set, return silently; a full
channel drops the event silently without touching the flag; a closed
channel emits one warning and sets the flag. -/
def send_best_effort (disabled : Bool) (ch : ChanSt) : BeResult :=
  if disabled then { disabled := true, warned := false, delivered := false }
  else
    match ch with
    | .avail => { disabled := false, warned := false, delivered := true }
    | .full => { disabled := false, warned := false, delivered := false }
    | .closed => { disabled := true, warned := true, delivered := false }

/-- A sequence of best-effort sends threading the disabled flag. -/
def runBestEffort (disabled : Bool) : List ChanSt → List BeResult
  | [] => []
  | ch :: rest =>
    let r := send_best_effort disabled ch
    r :: runBestEffort r.disabled rest

/-! ## Signal polling, src/manager.rs
Model of check_signals over the RECEIVED_SIGNAL atomic register.  The
handler installed by install_signal_handlers stores only SIGINT (2) or
SIGTERM (15); nix Signal try_from is modelled on those numbers.  The state
is the register content; check_signals swaps it with 0 and converts the
old value. -/

inductive Sig where
  | SIGINT
  | SIGTERM
deriving DecidableEq

/-- nix Signal::try_from restricted to the numbers the installed handler
can store (SIGINT = 2, SIGTERM = 15 on Linux). -/
def signalTryFrom (n : Nat) : Option Sig :=
  if n = 2 then some .SIGINT else if n = 15 then some .SIGTERM else none

/-- check_signals: swap the register with 0; a zero old value yields None,
otherwise convert the signal number (an invalid number logs and yields
None).  Returns the result and the new register value. -/
def check_signals (reg : Nat) : Option Sig × Nat :=
  let val := reg
  if val = 0 then (none, 0) else (signalTryFrom val, 0)

/-- Witness environment: every member healthy, every shutdown succeeds. -/
def envAllOk : Nat → MemberEnv :=
  fun _ => { bindOk := true, spawnOk := true, layer1 := .running,
             healthOk := true, shutdownOk := true }

/-- Witness child for the shutdown protocol: stays alive for two polls,
then exits cleanly. -/
def c3WitnessChild : ChildModel :=
  { pid := some 42,
    tryWaitSeq := fun k => if k < 2 then .running else .exited { success := true, code := 0 },
    startKillOk := true }

/-- A child that never exits: SIGTERM and SIGKILL are both ignored. -/
def c2IgnoresKill : ChildModel :=
  { pid := some 7, tryWaitSeq := fun _ => .running, startKillOk := true }

/-- A child whose first non-blocking wait returns an OS error. -/
def c2WaitErrChild : ChildModel :=
  { pid := some 7, tryWaitSeq := fun _ => .oserr, startKillOk := true }

/-- Witness configs for the embedded-server fleet: members 0 and 2 enabled,
member 1 disabled. -/
def c9Cfgs : List CategoryServerConfig :=
  [{ name := "git", binary := "kodegen-git", port := 30440, enabled := true },
   { name := "github", binary := "kodegen-github", port := 30441, enabled := false },
   { name := "prompt", binary := "kodegen-prompt", port := 30442, enabled := true }]

theorem pollLoop_exit (tw : Nat → TryWaitRes) (st : ExitStatus) :
    ∀ (k i fuel : Nat), k ≤ fuel →
    (∀ j, j < k → tw (i + j) = .running) →
    tw (i + k) = .exited st →
    pollLoop tw i fuel = (.exited st, i + k + 1, pollTrace k) := by
  intro k
  induction k with
  | zero =>
    intro i fuel _ _ hex
    rw [Nat.add_zero] at hex
    cases fuel <;> simp [pollLoop, hex, pollTrace]
  | succ k ih =>
    intro i fuel hk hrun hex
    cases fuel with
    | zero => omega
    | succ f =>
      have h0 : tw i = .running := by
        have := hrun 0 (Nat.succ_pos k)
        simpa using this
      have hrun1 : ∀ j, j < k → tw (i + 1 + j) = .running := by
        intro j hj
        have := hrun (j + 1) (by omega)
        rwa [show i + (j + 1) = i + 1 + j by omega] at this
      have hex1 : tw (i + 1 + k) = .exited st := by
        rwa [show i + (k + 1) = i + 1 + k by omega] at hex
      have hrec := ih (i + 1) f (by omega) hrun1 hex1
      have harith : i + 1 + k + 1 = i + (k + 1) + 1 := by omega
      simp only [pollLoop, h0, hrec, harith, pollTrace]

theorem pollLoop_waitErr (tw : Nat → TryWaitRes) :
    ∀ (k i fuel : Nat), k ≤ fuel →
    (∀ j, j < k → tw (i + j) = .running) →
    tw (i + k) = .oserr →
    pollLoop tw i fuel = (.waitErr, i + k + 1, pollTrace k) := by
  intro k
  induction k with
  | zero =>
    intro i fuel _ _ hex
    rw [Nat.add_zero] at hex
    cases fuel <;> simp [pollLoop, hex, pollTrace]
  | succ k ih =>
    intro i fuel hk hrun hex
    cases fuel with
    | zero => omega
    | succ f =>
      have h0 : tw i = .running := by
        have := hrun 0 (Nat.succ_pos k)
        simpa using this
      have hrun1 : ∀ j, j < k → tw (i + 1 + j) = .running := by
        intro j hj
        have := hrun (j + 1) (by omega)
        rwa [show i + (j + 1) = i + 1 + j by omega] at this
      have hex1 : tw (i + 1 + k) = .oserr := by
        rwa [show i + (k + 1) = i + 1 + k by omega] at hex
      have hrec := ih (i + 1) f (by omega) hrun1 hex1
      have harith : i + 1 + k + 1 = i + (k + 1) + 1 := by omega
      simp only [pollLoop, h0, hrec, harith, pollTrace]

theorem pollLoop_timeout (tw : Nat → TryWaitRes) :
    ∀ (fuel i : Nat),
    (∀ j, j ≤ fuel → tw (i + j) = .running) →
    pollLoop tw i fuel = (.timedOut, i + fuel + 1, pollTrace fuel) := by
  intro fuel
  induction fuel with
  | zero =>
    intro i hrun
    have := hrun 0 (Nat.le_refl 0)
    simp only [Nat.add_zero] at this
    simp [pollLoop, this, pollTrace]
  | succ f ih =>
    intro i hrun
    have h0 : tw i = .running := by
      have := hrun 0 (Nat.zero_le _)
      simpa using this
    have hrun1 : ∀ j, j ≤ f → tw (i + 1 + j) = .running := by
      intro j hj
      have := hrun (j + 1) (by omega)
      rwa [show i + (j + 1) = i + 1 + j by omega] at this
    have hrec := ih (i + 1) hrun1
    have harith : i + 1 + f + 1 = i + (f + 1) + 1 := by omega
    simp only [pollLoop, h0, hrec, harith, pollTrace]

theorem pollLoop_exited_src (tw : Nat → TryWaitRes) (st : ExitStatus) :
    ∀ (fuel i : Nat),
    (pollLoop tw i fuel).1 = .exited st → ∃ k, tw k = .exited st := by
  intro fuel
  induction fuel with
  | zero =>
    intro i h
    simp only [pollLoop] at h
    rcases hw : tw i with st2 | _ | _ <;> rw [hw] at h <;> simp_all
    exact ⟨i, hw⟩
  | succ f ih =>
    intro i h
    simp only [pollLoop] at h
    rcases hw : tw i with st2 | _ | _ <;> rw [hw] at h <;> simp_all
    · exact ⟨i, hw⟩
    · exact ih (i + 1) h

theorem pollLoop_timedOut_inv (tw : Nat → TryWaitRes) :
    ∀ (fuel i : Nat),
    (pollLoop tw i fuel).1 = .timedOut →
    (∀ j, j ≤ fuel → tw (i + j) = .running) ∧
      (pollLoop tw i fuel).2.1 = i + fuel + 1 := by
  intro fuel
  induction fuel with
  | zero =>
    intro i h
    simp only [pollLoop] at h ⊢
    rcases hw : tw i with st2 | _ | _ <;> rw [hw] at h <;> simp_all
  | succ f ih =>
    intro i h
    simp only [pollLoop] at h ⊢
    rcases hw : tw i with st2 | _ | _ <;> rw [hw] at h <;> simp_all
    have hrec := ih (i + 1) h
    constructor
    · intro j hj
      cases j with
      | zero => simpa using hw
      | succ j2 =>
        have := hrec.1 j2 (by omega)
        rwa [show i + 1 + j2 = i + (j2 + 1) by omega] at this
    · have := hrec.2
      omega

theorem pollLoop_waitErr_src (tw : Nat → TryWaitRes) :
    ∀ (fuel i : Nat),
    (pollLoop tw i fuel).1 = .waitErr → ∃ k, tw k = .oserr := by
  intro fuel
  induction fuel with
  | zero =>
    intro i h
    simp only [pollLoop] at h
    rcases hw : tw i with st2 | _ | _ <;> rw [hw] at h <;> simp_all
    exact ⟨i, hw⟩
  | succ f ih =>
    intro i h
    simp only [pollLoop] at h
    rcases hw : tw i with st2 | _ | _ <;> rw [hw] at h <;> simp_all
    · exact ih (i + 1) h
    · exact ⟨i, hw⟩

/-- C2 counterexample: the claim says that on failure the returned error
describes the phase (graceful or forced) that exceeded its bound.  For a
child whose first non-blocking wait returns an OS error, the call fails
with the "Error checking status" error (errStatusCheck), which is not the
bound-exceeded error of either phase (the only such error the source can
return is the forced-phase errKillTimeout, and the graceful phase never
returns an error at all). -/
theorem C2_counterexample :
    (shutdown_server_graceful c2WaitErrChild).1 = .errStatusCheck ∧
    ShutdownResult.errStatusCheck ≠ ShutdownResult.errKillTimeout := by
  constructor
  · rfl
  · decide

/-- C2 (amended): the shutdown choreography returns success only after the
child has been waited on: okExit carries a status produced by an actual
non-blocking wait, and okNoPid occurs only when the handle reports no pid
(tokio returns None from id() only for a child already reaped).  On
failure, the error is either the forced-phase bound-exceeded error
errKillTimeout, which occurs only when the child was still running at
every poll of both phases, or an OS error: errKillFailed when the kill
call itself failed, and errStatusCheck or errKillWait when a non-blocking
wait returned an OS error. -/
theorem C2_shutdown_reaping (c : ChildModel) :
    (∀ st, (shutdown_server_graceful c).1 = .okExit st →
        ∃ k, c.tryWaitSeq k = .exited st) ∧
    ((shutdown_server_graceful c).1 = .okNoPid → c.pid = none) ∧
    ((shutdown_server_graceful c).1 = .errKillTimeout →
        ∀ j, j ≤ 351 → c.tryWaitSeq j = .running) ∧
    ((shutdown_server_graceful c).1 = .errKillFailed → c.startKillOk = false) ∧
    (((shutdown_server_graceful c).1 = .errStatusCheck ∨
      (shutdown_server_graceful c).1 = .errKillWait) →
        ∃ k, c.tryWaitSeq k = .oserr) := by
  cases hp : c.pid with
  | none =>
    have hsd : (shutdown_server_graceful c).1 = .okNoPid := by
      simp [shutdown_server_graceful, hp]
    refine ⟨?_, ?_, ?_, ?_, ?_⟩ <;> rw [hsd]
    · intro st h; simp at h
    · intro _; rfl
    · intro h; simp at h
    · intro h; simp at h
    · intro h; simp at h
  | some p =>
    cases ho2 : (pollLoop c.tryWaitSeq 0 300).1 with
    | exited st2 =>
      have hsd : (shutdown_server_graceful c).1 = .okExit st2 := by
        simp [shutdown_server_graceful, hp, ho2]
      refine ⟨?_, ?_, ?_, ?_, ?_⟩ <;> rw [hsd]
      · intro st h
        simp at h
        subst h
        exact pollLoop_exited_src c.tryWaitSeq st2 300 0 ho2
      · intro h; simp at h
      · intro h; simp at h
      · intro h; simp at h
      · intro h; simp at h
    | waitErr =>
      have hsd : (shutdown_server_graceful c).1 = .errStatusCheck := by
        simp [shutdown_server_graceful, hp, ho2]
      refine ⟨?_, ?_, ?_, ?_, ?_⟩ <;> rw [hsd]
      · intro st h; simp at h
      · intro h; simp at h
      · intro h; simp at h
      · intro h; simp at h
      · intro _; exact pollLoop_waitErr_src c.tryWaitSeq 300 0 ho2
    | timedOut =>
      cases hkill : c.startKillOk with
      | false =>
        have hsd : (shutdown_server_graceful c).1 = .errKillFailed := by
          simp [shutdown_server_graceful, hp, ho2, hkill]
        refine ⟨?_, ?_, ?_, ?_, ?_⟩ <;> rw [hsd]
        · intro st h; simp at h
        · intro h; simp at h
        · intro h; simp at h
        · intro _; rfl
        · intro h; simp at h
      | true =>
        have hinv2 := pollLoop_timedOut_inv c.tryWaitSeq 300 0 ho2
        cases ho4 : (pollLoop c.tryWaitSeq (pollLoop c.tryWaitSeq 0 300).2.1 50).1 with
        | exited st2 =>
          have hsd : (shutdown_server_graceful c).1 = .okExit st2 := by
            simp [shutdown_server_graceful, hp, ho2, hkill, ho4]
          refine ⟨?_, ?_, ?_, ?_, ?_⟩ <;> rw [hsd]
          · intro st h
            simp at h
            subst h
            exact pollLoop_exited_src c.tryWaitSeq st2 50 _ ho4
          · intro h; simp at h
          · intro h; simp at h
          · intro h; simp at h
          · intro h; simp at h
        | waitErr =>
          have hsd : (shutdown_server_graceful c).1 = .errKillWait := by
            simp [shutdown_server_graceful, hp, ho2, hkill, ho4]
          refine ⟨?_, ?_, ?_, ?_, ?_⟩ <;> rw [hsd]
          · intro st h; simp at h
          · intro h; simp at h
          · intro h; simp at h
          · intro h; simp at h
          · intro _; exact pollLoop_waitErr_src c.tryWaitSeq 50 _ ho4
        | timedOut =>
          have hsd : (shutdown_server_graceful c).1 = .errKillTimeout := by
            simp [shutdown_server_graceful, hp, ho2, hkill, ho4]
          have hinv4 := pollLoop_timedOut_inv c.tryWaitSeq 50 _ ho4
          refine ⟨?_, ?_, ?_, ?_, ?_⟩ <;> rw [hsd]
          · intro st h; simp at h
          · intro h; simp at h
          · intro _ j hj
            by_cases hj300 : j ≤ 300
            · have := hinv2.1 j hj300
              simpa using this
            · have hc := hinv4.1 (j - 301) (by omega)
              rw [hinv2.2] at hc
              rwa [show 0 + 300 + 1 + (j - 301) = j by omega] at hc
          · intro h; simp at h
          · intro h; simp at h

/-- C2 witness: a child that ignores both signals makes the forced-phase
bound-exceeded error reachable, and the amended theorem then reports that
the child was running at every poll. -/
theorem C2_witness :
    (shutdown_server_graceful c2IgnoresKill).1 = .errKillTimeout ∧
    c2IgnoresKill.tryWaitSeq 5 = .running := by
  have h := (C2_shutdown_reaping c2IgnoresKill).2.2.1
  refine ⟨rfl, h rfl 5 (by omega)⟩

/-- C3: the POSIX shutdown choreography follows exactly the specified
steps.  For a child handle with a pid: SIGTERM is sent first; the graceful
phase polls via non-blocking wait every 100ms for up to 30s (301 polls at
t = 0..30s) and returns success with the observed exit status as soon as
the child exits; on graceful timeout SIGKILL is sent; the forced phase
polls every 100ms for up to 5s (51 polls), returning success on exit and
the errKillTimeout error on this final timeout. -/
theorem C3_shutdown_protocol (c : ChildModel) (p : Nat) (hp : c.pid = some p) :
    (∀ k st, k ≤ 300 →
      (∀ j, j < k → c.tryWaitSeq j = .running) →
      c.tryWaitSeq k = .exited st →
      shutdown_server_graceful c = (.okExit st, .sigterm :: pollTrace k)) ∧
    ((∀ j, j ≤ 300 → c.tryWaitSeq j = .running) → c.startKillOk = true →
      ((∀ k st, k ≤ 50 →
        (∀ j, j < k → c.tryWaitSeq (301 + j) = .running) →
        c.tryWaitSeq (301 + k) = .exited st →
        shutdown_server_graceful c =
          (.okExit st, .sigterm :: pollTrace 300 ++ .sigkill :: pollTrace k)) ∧
      ((∀ j, j ≤ 50 → c.tryWaitSeq (301 + j) = .running) →
        shutdown_server_graceful c =
          (.errKillTimeout, .sigterm :: pollTrace 300 ++ .sigkill :: pollTrace 50)))) := by
  constructor
  · intro k st hk hrun hex
    have hpl := pollLoop_exit c.tryWaitSeq st k 0 300 hk
      (fun j hj => by simpa using hrun j hj) (by simpa using hex)
    simp [shutdown_server_graceful, hp, hpl]
  · intro hg hkill
    have hpl2 := pollLoop_timeout c.tryWaitSeq 300 0
      (fun j hj => by simpa using hg j hj)
    have hn : (0 : Nat) + 300 + 1 = 301 := by norm_num
    rw [hn] at hpl2
    constructor
    · intro k st hk hrun hex
      have hpl4 := pollLoop_exit c.tryWaitSeq st k 301 50 hk hrun hex
      simp [shutdown_server_graceful, hp, hpl2, hpl4, hkill]
    · intro hf
      have hpl4 := pollLoop_timeout c.tryWaitSeq 50 301 hf
      simp [shutdown_server_graceful, hp, hpl2, hpl4, hkill]

/-- C3 witness: a child that exits cleanly at the third poll (t = 200ms)
is reaped immediately with its exit status, after SIGTERM, two sleeps and
three non-blocking waits, and no SIGKILL. -/
theorem C3_witness :
    shutdown_server_graceful c3WitnessChild =
      (.okExit { success := true, code := 0 },
        [.sigterm, .tryWait, .sleep100, .tryWait, .sleep100, .tryWait]) := by
  have h := (C3_shutdown_protocol c3WitnessChild 42 rfl).1 2
    { success := true, code := 0 } (by omega) (by decide) (by decide)
  simpa [pollTrace] using h

theorem rollbackGo_trace (env : Nat → MemberEnv) :
    ∀ (l live : List Nat),
    (rollbackGo env l live).1 = l.flatMap (rollbackMemberTrace env) := by
  intro l
  induction l with
  | nil => intro live; simp [rollbackGo]
  | cons idx rest ih =>
    intro live
    simp [rollbackGo, ih]

theorem rollbackGo_no_bind (env : Nat → MemberEnv) :
    ∀ (l live : List Nat) (p : Nat),
    FleetEv.bind p ∉ (rollbackGo env l live).1 := by
  intro l live p
  rw [rollbackGo_trace]
  intro hmem
  rw [List.mem_flatMap] at hmem
  obtain ⟨idx, _, hmem2⟩ := hmem
  simp [rollbackMemberTrace] at hmem2

theorem startGo_no_bind (env : Nat → MemberEnv) :
    ∀ (l : List (Nat × CategoryServerConfig)) (spawned live : List Nat) (p : Nat),
    FleetEv.bind p ∉ (startGo env l spawned live).trace := by
  intro l
  induction l with
  | nil => intro spawned live p; simp [startGo]
  | cons hd tl ih =>
    intro spawned live p
    obtain ⟨idx, c⟩ := hd
    simp only [startGo]
    cases hen : c.enabled with
    | false => simpa using ih spawned live p
    | true =>
      cases hsp : (env idx).spawnOk with
      | false => simp
      | true =>
        cases hl1 : (env idx).layer1 with
        | failed => simpa using rollbackGo_no_bind env spawned.reverse live p
        | timeout => simpa using rollbackGo_no_bind env spawned.reverse (idx :: live) p
        | running =>
          cases hh : (env idx).healthOk with
          | false =>
            simpa using rollbackGo_no_bind env spawned.reverse (idx :: live) p
          | true =>
            simpa using ih (spawned ++ [idx]) (idx :: live) p

theorem preflightGo_fst (env : Nat → MemberEnv) :
    ∀ (cfgs : List CategoryServerConfig) (i : Nat),
    (preflightGo env cfgs i).1 = allEnabledBindsOk env cfgs i := by
  intro cfgs
  induction cfgs with
  | nil => intro i; simp [preflightGo, allEnabledBindsOk]
  | cons c rest ih =>
    intro i
    cases hen : c.enabled with
    | false => simp [preflightGo, allEnabledBindsOk, hen, ih]
    | true =>
      cases hb : (env i).bindOk with
      | false => simp [preflightGo, allEnabledBindsOk, hen, hb]
      | true => simp [preflightGo, allEnabledBindsOk, hen, hb, ih]

theorem preflightGo_trace_ok (env : Nat → MemberEnv) :
    ∀ (cfgs : List CategoryServerConfig) (i : Nat),
    allEnabledBindsOk env cfgs i = true →
    (preflightGo env cfgs i).2 = bindReleaseTrace cfgs i := by
  intro cfgs
  induction cfgs with
  | nil => intro i _; simp [preflightGo, bindReleaseTrace]
  | cons c rest ih =>
    intro i h
    cases hen : c.enabled with
    | false =>
      rw [allEnabledBindsOk, hen] at h
      simp only [Bool.not_false, Bool.true_or, Bool.true_and] at h
      simp [preflightGo, bindReleaseTrace, hen, ih i.succ h]
    | true =>
      rw [allEnabledBindsOk, hen] at h
      simp only [Bool.not_true, Bool.false_or, Bool.and_eq_true] at h
      simp [preflightGo, bindReleaseTrace, hen, h.1, ih i.succ h.2]

theorem preflightGo_no_spawn (env : Nat → MemberEnv) :
    ∀ (cfgs : List CategoryServerConfig) (i j : Nat),
    FleetEv.spawn j ∉ (preflightGo env cfgs i).2 := by
  intro cfgs
  induction cfgs with
  | nil => intro i j; simp [preflightGo]
  | cons c rest ih =>
    intro i j
    cases hen : c.enabled with
    | false => simpa [preflightGo, hen] using ih (i + 1) j
    | true =>
      cases hb : (env i).bindOk with
      | false => simp [preflightGo, hen, hb]
      | true => simpa [preflightGo, hen, hb] using ih (i + 1) j

/-- C5: before any child is spawned, the pre-flight binds a listener on
127.0.0.1:port for every enabled member and immediately releases it (the
pre-flight trace is exactly the bind-release pair per enabled member, and
the spawn phase performs no bind, so no listener is ever leaked); if any
enabled member's bind fails, the whole startup fails with no child
spawned and no live member. -/
theorem C5_preflight_bind_release (cfgs : List CategoryServerConfig)
    (env : Nat → MemberEnv) :
    ((preflight cfgs env).1 = allEnabledBindsOk env cfgs 0) ∧
    (allEnabledBindsOk env cfgs 0 = true →
      (KodegenHttpService.start cfgs env).trace =
        bindReleaseTrace cfgs 0 ++ (startGo env cfgs.enum [] []).trace ∧
      ∀ p, FleetEv.bind p ∉ (startGo env cfgs.enum [] []).trace) ∧
    (allEnabledBindsOk env cfgs 0 = false →
      (KodegenHttpService.start cfgs env).ok = false ∧
      (KodegenHttpService.start cfgs env).live = [] ∧
      ∀ i, FleetEv.spawn i ∉ (KodegenHttpService.start cfgs env).trace) := by
  have hfst := preflightGo_fst env cfgs 0
  refine ⟨hfst, ?_, ?_⟩
  · intro h
    have htrue : (preflightGo env cfgs 0).1 = true := by rw [hfst, h]
    constructor
    · simp only [KodegenHttpService.start, preflight, htrue, if_true]
      rw [preflightGo_trace_ok env cfgs 0 h]
    · intro p
      exact startGo_no_bind env cfgs.enum [] [] p
  · intro h
    have hfalse : (preflightGo env cfgs 0).1 = false := by rw [hfst, h]
    refine ⟨?_, ?_, ?_⟩
    · simp [KodegenHttpService.start, preflight, hfalse]
    · simp [KodegenHttpService.start, preflight, hfalse]
    · intro i
      simp only [KodegenHttpService.start, preflight, hfalse]
      simpa using preflightGo_no_spawn env cfgs 0 i

/-- C5 witness: a one-member fleet with all binds succeeding has the
bind-release pair before the spawn events, and the spawn phase performs no
bind. -/
theorem C5_witness :
    (KodegenHttpService.start c1Cfgs envAllOk).trace =
      bindReleaseTrace c1Cfgs 0 ++ (startGo envAllOk c1Cfgs.enum [] []).trace ∧
    FleetEv.bind 30437 ∉ (startGo envAllOk c1Cfgs.enum [] []).trace := by
  have h := (C5_preflight_bind_release c1Cfgs envAllOk).2.1 (by decide)
  exact ⟨h.1, h.2 30437⟩

/-- C1: code-bug exhibit.  A one-member fleet whose child spawns, stays
alive, but never answers 2xx on /health: KodegenHttpService.start returns
an error, yet member 0's child is still live, because the Layer-2 health
failure path only rolls back the PREVIOUS members (spawned_indices does
not yet contain the failing member) and never shuts down the failing
member's own child.  This contradicts the claimed atomicity ("no member
started by the call is still live on error"). -/
theorem C1_health_failure_leaves_member_live :
    (KodegenHttpService.start c1Cfgs c1Env).ok = false ∧
    (KodegenHttpService.start c1Cfgs c1Env).live = [0] ∧
    (KodegenHttpService.start c1Cfgs c1Env).trace =
      [.bind 30437, .release 30437, .spawn 0, .abortMonitor 0] := by
  refine ⟨rfl, rfl, rfl⟩

/-- C4: LIFO rollback.  The rollback trace is exactly the reverse of the
spawned-index list, flat-mapped through the per-member rollback events;
within each member the shutdown of the child precedes the abort of the
monitor and of the two log-forwarding tasks; and every spawned member is
rolled back (its shutdown-then-abort pair occurs in the trace) regardless
of the shutdown results of the other members, i.e. a rollback error does
not short-circuit the remaining rollbacks. -/
theorem C4_lifo_rollback (env : Nat → MemberEnv) (spawned live : List Nat) :
    (rollback_spawned env spawned live).1 =
        spawned.reverse.flatMap (rollbackMemberTrace env) ∧
    (∀ idx, rollbackMemberTrace env idx =
        [.shutdown idx (env idx).shutdownOk, .abortMonitor idx,
          .abortStdout idx, .abortStderr idx]) ∧
    (∀ idx, idx ∈ spawned →
        List.Sublist
          [FleetEv.shutdown idx ((env idx).shutdownOk), FleetEv.abortMonitor idx]
          (rollback_spawned env spawned live).1) := by
  have htr : (rollback_spawned env spawned live).1 =
      spawned.reverse.flatMap (rollbackMemberTrace env) :=
    rollbackGo_trace env spawned.reverse live
  refine ⟨htr, fun idx => rfl, ?_⟩
  intro idx hmem
  rw [htr]
  have hmem2 : idx ∈ spawned.reverse := List.mem_reverse.mpr hmem
  obtain ⟨l1, l2, hsplit⟩ := List.append_of_mem hmem2
  rw [hsplit, List.flatMap_append, List.flatMap_cons]
  refine List.Sublist.trans ?_ (List.sublist_append_right _ _)
  refine List.Sublist.trans ?_ (List.sublist_append_left _ _)
  exact ((List.nil_sublist _).cons₂ _).cons₂ _

/-- C4 witness: rolling back spawned members 0 then 1 shuts down member 1
first (reverse startup order), with the shutdown before the aborts. -/
theorem C4_witness :
    (rollback_spawned envAllOk [0, 1] [0, 1]).1 =
      [.shutdown 1 true, .abortMonitor 1, .abortStdout 1, .abortStderr 1,
        .shutdown 0 true, .abortMonitor 0, .abortStdout 0, .abortStderr 0] ∧
    List.Sublist [FleetEv.shutdown 1 true, FleetEv.abortMonitor 1]
      (rollback_spawned envAllOk [0, 1] [0, 1]).1 := by
  refine ⟨rfl, ?_⟩
  exact (C4_lifo_rollback envAllOk [0, 1] [0, 1]).2.2 1 (by decide)

theorem startAllGo_some (env : Nat → Bool) :
    ∀ (l : List (Nat × CategoryServerConfig)) (res : List EmbeddedServer),
    (startAllGo env l).1 = some res →
    res = (l.filter (fun p => p.2.enabled)).map
        (fun p => { name := p.2.name, port := p.2.port }) ∧
    (startAllGo env l).2 = (l.filter (fun p => p.2.enabled)).map (fun p => p.1) := by
  intro l
  induction l with
  | nil =>
    intro res h
    simp only [startAllGo, Option.some.injEq] at h
    subst h
    simp [startAllGo]
  | cons hd tl ih =>
    intro res h
    obtain ⟨i, c⟩ := hd
    cases hen : c.enabled with
    | false =>
      rw [startAllGo, hen] at h
      simp only [if_false, Bool.false_eq_true] at h
      have := ih res h
      simp [startAllGo, hen, this.1, this.2]
    | true =>
      cases he : env i with
      | false =>
        rw [startAllGo, hen, he] at h
        simp at h
      | true =>
        rw [startAllGo, hen, he] at h
        simp only [if_true] at h
        cases hres : (startAllGo env tl).1 with
        | none => rw [hres] at h; simp at h
        | some res2 =>
          rw [hres] at h
          simp at h
          have := ih res2 hres
          subst h
          simp [startAllGo, hen, he, this.1, this.2, hres]

theorem enumFrom_filter_map_handles :
    ∀ (cfgs : List CategoryServerConfig) (i : Nat),
    ((List.enumFrom i cfgs).filter (fun p => p.2.enabled)).map
        (fun p => ({ name := p.2.name, port := p.2.port } : EmbeddedServer)) =
      (cfgs.filter (fun c => c.enabled)).map
        (fun c => { name := c.name, port := c.port }) := by
  intro cfgs
  induction cfgs with
  | nil => intro i; simp
  | cons c rest ih =>
    intro i
    cases hen : c.enabled with
    | false => simp [List.enumFrom, hen, ih]
    | true => simp [List.enumFrom, hen, ih]

/-- C9: on success, the handle list returned by start_all_servers contains
exactly the enabled members of the input configuration, in order, each
handle carrying that member's name and port; disabled members are skipped
and start_server is invoked exactly for the enabled member indices. -/
theorem C9_start_all_servers_handles (cfgs : List CategoryServerConfig)
    (env : Nat → Bool) (l : List EmbeddedServer)
    (h : (start_all_servers cfgs env).1 = some l) :
    l = (cfgs.filter (fun c => c.enabled)).map
        (fun c => { name := c.name, port := c.port }) ∧
    (start_all_servers cfgs env).2 =
      (cfgs.enum.filter (fun p => p.2.enabled)).map (fun p => p.1) := by
  have hgo := startAllGo_some env cfgs.enum l h
  refine ⟨?_, hgo.2⟩
  rw [hgo.1, List.enum]
  exact enumFrom_filter_map_handles cfgs 0

/-- C9 witness: a three-member fleet with member 1 disabled yields handles
for members 0 and 2 only, in order, and starts exactly indices 0 and 2. -/
theorem C9_witness :
    ({ name := "git", port := 30440 } :: { name := "prompt", port := 30442 } :: []
        : List EmbeddedServer) =
      (c9Cfgs.filter (fun c => c.enabled)).map
        (fun c => { name := c.name, port := c.port }) ∧
    (start_all_servers c9Cfgs (fun _ => true)).2 =
      (c9Cfgs.enum.filter (fun p => p.2.enabled)).map (fun p => p.1) := by
  exact C9_start_all_servers_handles c9Cfgs (fun _ => true) _ rfl

/-- C6 counterexample: for a worker that crashes immediately after each
Start, three crash-and-restart cycles leave pending entries whose attempt
counts are 1, 1, 1 - not 1, 2, 3 as claimed - because the restart tick
removes the entry when it issues Start, so the next crash finds no prior
entry and schedule_restart falls back to attempts = 1. -/
theorem C6_counterexample :
    c6observedAttempts = [1, 1, 1] ∧ c6observedAttempts ≠ [1, 2, 3] := by
  constructor
  · rfl
  · decide

/-- C6 (amended): schedule_restart sets attempts = prior + 1 when an entry
for the service is still pending and 1 otherwise, with the due instant
now + delay; the restart tick removes every due entry (the remaining table
holds only entries that are not yet due) and issues Start with the removed
entry's attempt count; consequently three consecutive
crash-then-restart-tick cycles observe attempt counts 1, 1, 1. -/
theorem C6_restart_attempt_counts (workers : List String)
    (pending : List (String × RestartSt)) (s : String) (d now : Nat)
    (hw : workers.contains s = true) :
    List.lookup s (schedule_restart workers pending s d now) =
      some { stopTime := now + d,
             attempts :=
               match List.lookup s pending with
               | none => 1
               | some st => st.attempts + 1 } ∧
    (∀ q ∈ (process_pending_restarts workers pending now).1, now < q.2.stopTime) ∧
    (∀ sv st, (sv, st) ∈ pending → st.stopTime ≤ now → workers.contains sv = true →
        (sv, st.attempts) ∈ (process_pending_restarts workers pending now).2) ∧
    c6observedAttempts = [1, 1, 1] := by
  refine ⟨?_, ?_, ?_, rfl⟩
  · simp only [schedule_restart]
    rw [hw]
    simp [insertP, List.lookup]
  · intro q hq
    simp only [process_pending_restarts, List.mem_filter,
      Bool.not_eq_eq_eq_not, Bool.not_true, decide_eq_false_iff_not] at hq
    omega
  · intro sv st hmem hdue hcw
    simp only [process_pending_restarts]
    refine List.mem_map.mpr ⟨(sv, st), ?_, rfl⟩
    refine List.mem_filter.mpr ⟨?_, hcw⟩
    exact List.mem_filter.mpr ⟨hmem, by simpa using hdue⟩

/-- C6 witness: scheduling a restart for a known worker with an empty
pending table yields an entry due immediately with attempt count 1. -/
theorem C6_witness :
    List.lookup "w" (schedule_restart ["w"] [] "w" 0 0) =
      some { stopTime := 0, attempts := 1 } := by
  have h := (C6_restart_attempt_counts ["w"] [] "w" 0 0 (by decide)).1
  simpa using h

/-- C7 counterexample: a full but open channel makes send_critical fail
with the error "Progress channel closed", not with a distinct
"subscriber not draining" condition (no such error exists in the source). -/
theorem C7_counterexample :
    send_critical false true = .failed "Progress channel closed" ∧
    "Progress channel closed" ≠ "subscriber not draining" := by
  constructor
  · rfl
  · decide

/-- C7 (amended): a critical send succeeds exactly when the channel is
neither closed nor full, so a critical event is never silently dropped; a
closed channel fails the operation with "Download cancelled: progress
channel closed"; a full channel also fails the operation, but with the
generic "Progress channel closed" error rather than a distinct
"subscriber not draining" condition; and download_binary succeeds exactly
when all three phase-transition sends succeeded (any critical-send failure
propagates up the stack). -/
theorem C7_critical_send_discipline :
    (∀ closed full, send_critical closed full = .sent ↔
        (closed = false ∧ full = false)) ∧
    (∀ full, send_critical true full =
        .failed "Download cancelled: progress channel closed") ∧
    (send_critical false true = .failed "Progress channel closed") ∧
    (∀ c0 f0 c1 f1 c2 f2 fetchOk dlOk exOk,
        download_binary c0 f0 c1 f1 c2 f2 fetchOk dlOk exOk = .ok ↔
          (c0 = false ∧ f0 = false ∧ c1 = false ∧ f1 = false ∧
            c2 = false ∧ f2 = false ∧
            fetchOk = true ∧ dlOk = true ∧ exOk = true)) := by
  refine ⟨?_, ?_, rfl, ?_⟩
  · decide
  · decide
  · intro c0 f0 c1 f1 c2 f2 fetchOk dlOk exOk
    cases c0 <;> cases f0 <;> cases c1 <;> cases f1 <;> cases c2 <;> cases f2 <;>
      cases fetchOk <;> cases dlOk <;> cases exOk <;> decide

theorem runBestEffort_true_no_warn :
    ∀ chs : List ChanSt,
    (runBestEffort true chs).filter (fun r => r.warned) = [] := by
  intro chs
  induction chs with
  | nil => rfl
  | cons ch rest ih => simpa [runBestEffort, send_best_effort] using ih

/-- C8: best-effort send discipline.  With the flag already set, every send
is a silent no-op (no warning, nothing delivered, flag stays set); from a
clear flag, a closed channel emits the warning and sets the flag, a full
but open channel drops the event silently without setting the flag, and an
available channel delivers; across any sequence of best-effort sends
starting with a clear flag, at most one warning is ever emitted. -/
theorem C8_best_effort_discipline :
    (∀ ch, send_best_effort true ch =
        { disabled := true, warned := false, delivered := false }) ∧
    (send_best_effort false .closed =
        { disabled := true, warned := true, delivered := false }) ∧
    (send_best_effort false .full =
        { disabled := false, warned := false, delivered := false }) ∧
    (send_best_effort false .avail =
        { disabled := false, warned := false, delivered := true }) ∧
    (∀ chs : List ChanSt, runBestEffort true chs =
        List.replicate chs.length
          { disabled := true, warned := false, delivered := false }) ∧
    (∀ chs : List ChanSt,
        ((runBestEffort false chs).filter (fun r => r.warned)).length ≤ 1) := by
  refine ⟨fun ch => rfl, rfl, rfl, rfl, ?_, ?_⟩
  · intro chs
    induction chs with
    | nil => rfl
    | cons ch rest ih => simp [runBestEffort, send_best_effort, ih, List.replicate]
  · intro chs
    induction chs with
    | nil => simp [runBestEffort]
    | cons ch rest ih =>
      cases ch with
      | avail => simpa [runBestEffort, send_best_effort] using ih
      | full => simpa [runBestEffort, send_best_effort] using ih
      | closed =>
        simp [runBestEffort, send_best_effort, runBestEffort_true_no_warn rest]

/-- C10: check_signals consumes the stored signal by swapping the register
to zero: a zero register yields None; the register is always zero after
the call; when the call returns Some, an immediately following call (with
no new signal stored) returns None; and a nonzero register is converted
through the signal-number table. -/
theorem C10_check_signals_consumes (reg : Nat) :
    (check_signals 0 = (none, 0)) ∧
    ((check_signals reg).2 = 0) ∧
    (∀ sig, (check_signals reg).1 = some sig →
        (check_signals (check_signals reg).2).1 = none) ∧
    (reg ≠ 0 → (check_signals reg).1 = signalTryFrom reg) := by
  refine ⟨rfl, ?_, ?_, ?_⟩
  · by_cases h : reg = 0 <;> simp [check_signals, h]
  · intro sig _
    have h2 : (check_signals reg).2 = 0 := by
      by_cases h : reg = 0 <;> simp [check_signals, h]
    rw [h2]
    rfl
  · intro h
    simp [check_signals, h]

/-- C10 witness: a stored SIGTERM (15) is returned once; the immediately
following call returns None. -/
theorem C10_witness :
    (check_signals 15).1 = some Sig.SIGTERM ∧
    (check_signals (check_signals 15).2).1 = none := by
  exact ⟨rfl, (C10_check_signals_consumes 15).2.2.1 Sig.SIGTERM rfl⟩
